import Mathlib

/-!
Shallow embedding of the dual-write / multi-source-merge message store
(db.py, repository_manager.py, git_ops.py, server.py).

Conventions of the embedding:
* SQLite rows become a Lean structure `Row`; the database file becomes an
  explicit `DBState` (list of rows plus the AUTOINCREMENT counter).
* `datetime.now().isoformat()` becomes an explicit timestamp argument.
  Timestamps are ISO-8601 strings; SQLite's `ORDER BY timestamp DESC` on a
  TEXT column is lexicographic string comparison, and
  `datetime.fromisoformat` of canonical same-format strings is monotone in
  that same lexicographic order, so both sorts are modelled with `String` ≤.
* Network I/O becomes explicit environment values describing what the
  remote backend answers (statuses, parse outcomes); raised Python
  exceptions become `Except` error values.
-/

namespace MessageBoard

/-- One row of the `messages` table (db.py `init_db`): columns id, content,
author, timestamp, github_url (nullable). -/
structure Row where
  id : Nat
  content : String
  author : String
  timestamp : String
  github_url : Option String
deriving Repr, DecidableEq

/-- The state of the SQLite database behind `DatabaseManager`: the rows of
the `messages` table and the next AUTOINCREMENT id. -/
structure DBState where
  rows : List Row
  nextId : Nat
deriving Repr, DecidableEq

/-- Well-formedness maintained by SQLite AUTOINCREMENT: every existing row
id is below the next id to be assigned. -/
def DBState.wf (st : DBState) : Prop :=
  ∀ r ∈ st.rows, r.id < st.nextId

/-- Embedding of db.py `DatabaseManager.get_message`: `SELECT ... WHERE id = ?` with
`fetchone`, returning the row as a dict or `None`. -/
def get_message (st : DBState) (message_id : Nat) : Option Row :=
  st.rows.find? (fun r => r.id == message_id)

/-- Embedding of db.py `DatabaseManager.store_message`: inserts (content, author,
timestamp, github_url) with a fresh AUTOINCREMENT id, commits, then returns
`self.get_message(message_id)`.  No validation of any kind is performed on
`content` or `author`. -/
def store_message (st : DBState) (content : String) (author : String)
    (github_url : Option String) (ts : String) : DBState × Option Row :=
  let row : Row := ⟨st.nextId, content, author, ts, github_url⟩
  let st' : DBState := ⟨st.rows ++ [row], st.nextId + 1⟩
  (st', get_message st' st.nextId)

/-- The comparison used for `ORDER BY timestamp DESC` on the TEXT column:
row `a` comes before row `b` when `a.timestamp ≥ b.timestamp`. -/
def rowDesc (a b : Row) : Bool :=
  decide (b.timestamp ≤ a.timestamp)

/-- Embedding of db.py `DatabaseManager.get_messages`: `SELECT ... ORDER BY timestamp
DESC LIMIT ?`.  No validation of `limit` happens here; SQLite treats a
negative LIMIT as "no upper bound" and LIMIT 0 as the empty result. -/
def get_messages (st : DBState) (limit : Int) : List Row :=
  let sorted := st.rows.mergeSort rowDesc
  if limit < 0 then sorted else sorted.take limit.toNat

/-- Embedding of db.py `DatabaseManager.update_github_url`: `UPDATE messages SET
github_url = ? WHERE id = ?`, returning `rowcount > 0`. -/
def update_github_url (st : DBState) (message_id : Nat) (url : String) :
    DBState × Bool :=
  let rows' := st.rows.map (fun r =>
    if r.id == message_id then { r with github_url := some url } else r)
  (⟨rows', st.nextId⟩, st.rows.any (fun r => r.id == message_id))

/-- The Python exceptions the embedded control flow distinguishes. -/
inductive PyError where
  | attributeError
  | valueError (msg : String)
  | keyError
  | requestError (msg : String)
deriving Repr, DecidableEq

/-- Note that server.py line 170 calls `self.db.update_message(...)`, but db.py's
`DatabaseManager` defines no method named `update_message` (it defines
`update_github_url`), so in Python the attribute lookup raises
`AttributeError` on every call, before the arguments are even evaluated. -/
def update_message (_st : DBState) : Except PyError (DBState × Bool) :=
  .error .attributeError

/-- Embedding of repository_manager.py `RepositoryConfig`. -/
structure RepositoryConfig where
  owner : String
  name : String
  branch : String
  message_path : String
deriving Repr, DecidableEq

/-- Embedding of the repository_manager.py `Message` dataclass (the per-repository fetch
result).  The `datetime` timestamp is kept as its ISO string. -/
structure GhMessage where
  content : String
  author : String
  timestamp : String
  repository : String
  commit_url : Option String
  message_id : Option String
deriving Repr, DecidableEq

/-- The JSON record read out of one repository file, after the `.get`
defaults of repository_manager.py lines 75-84 have been applied
(message defaults to "", author to "Anonymous", timestamp to now). -/
structure ParsedRecord where
  message : String
  author : String
  timestamp : String
  commit_url : Option String
  id : Option String
deriving Repr, DecidableEq

/-- What the GitHub contents API answers for one file of the tree:
`status` is the HTTP status of the per-file GET; `parse` is `some r` when
`json.loads`/`fromisoformat` on the body succeed and `none` when they raise
(`JSONDecodeError`/`ValueError`, skipped at lines 86-88). -/
structure TreeFile where
  path : String
  status : Nat
  parse : Option ParsedRecord
deriving Repr, DecidableEq

/-- What one repository's backend answers during
`fetch_messages_from_repo`: either some exception escapes the `try` body
(network error, malformed tree JSON, ... — all caught at line 92), or the
tree request completes with a status and a list of files. -/
inductive RepoFetchEnv where
  | raise
  | tree (status : Nat) (files : List TreeFile)
deriving Repr, DecidableEq

/-- Model of the Python `str.startswith`, on the character sequence. -/
def strStartsWith (s p : String) : Bool :=
  s.data.take p.data.length == p.data

/-- Model of the Python `str.endswith`, on the character sequence. -/
def strEndsWith (s p : String) : Bool :=
  s.data.drop (s.data.length - p.data.length) == p.data

/-- The filter of repository_manager.py lines 55-59: keep tree items whose
path starts with the message path followed by "/" and ends with ".json". -/
def message_files (repo : RepositoryConfig) (files : List TreeFile) :
    List TreeFile :=
  files.filter (fun f =>
    strStartsWith f.path (repo.message_path ++ "/")
      && strEndsWith f.path ".json")

/-- Embedding of repository_manager.py `RepositoryManager.fetch_messages_from_repo`:
a non-200 tree response returns `[]`; per file, a non-200 GET is skipped
(`continue`), a parse failure is skipped (`continue`), a parsed record
becomes a `Message` tagged with `owner/name`; any exception escaping the
body is caught and the whole fetch returns `[]`. -/
def fetch_messages_from_repo (repo : RepositoryConfig) (env : RepoFetchEnv) :
    List GhMessage :=
  match env with
  | .raise => []
  | .tree status files =>
    if status ≠ 200 then []
    else
      (message_files repo files).filterMap (fun f =>
        if f.status ≠ 200 then none
        else f.parse.map (fun p =>
          ⟨p.message, p.author, p.timestamp,
           repo.owner ++ "/" ++ repo.name, p.commit_url, p.id⟩))

/-- Model of the Python `xs[:limit]` slice for an `int` limit: a negative limit drops
the last `|limit|` elements, a non-negative one keeps the first `limit`. -/
def pyTake (limit : Int) (xs : List α) : List α :=
  if limit < 0 then xs.take (xs.length - limit.natAbs) else xs.take limit.toNat

/-- The comparison of repository_manager.py line 109 / server.py line 90:
sort by timestamp with `reverse=True` (descending, stable). -/
def ghDesc (a b : GhMessage) : Bool :=
  decide (b.timestamp ≤ a.timestamp)

/-- Embedding of repository_manager.py `RepositoryManager.fetch_all_messages`:
`asyncio.gather` over one `fetch_messages_from_repo` task per registered
repository (results concatenated in registration order), then sort by
timestamp descending, then `[:limit]` when a limit is given. -/
def fetch_all_messages (repos : List (RepositoryConfig × RepoFetchEnv))
    (limit : Option Int) : List GhMessage :=
  let all_messages :=
    (repos.map (fun re => fetch_messages_from_repo re.1 re.2)).flatten
  let sorted := all_messages.mergeSort ghDesc
  match limit with
  | none => sorted
  | some l => pyTake l sorted

/-- Embedding of repository_manager.py `RepositoryManager.store_message`: raises
`ValueError` when no repositories are configured (line 120, checked before
`target_repo` is even consulted); otherwise it builds the message data and
evaluates `file_content.encode().encode('base64')` (line 145) — in
Python 3 `bytes` has no method `encode`, so every call raises
`AttributeError` before any network request is issued. -/
def repo_store_message (repositories : List RepositoryConfig)
    (_content _author : String) (_target : Option RepositoryConfig) :
    Except PyError Unit :=
  if repositories.isEmpty then .error (.valueError "No repositories configured")
  else .error .attributeError

/-- A JSON record stored in one remote message file, as read back by
git_ops.py `get_messages`.  Fields are optional because the code never
checks for their presence: only the later `x['timestamp']` sort-key access
can fail. -/
structure GitRecord where
  content : Option String
  author : Option String
  timestamp : Option String
deriving Repr, DecidableEq

/-- What downloading one directory entry does in git_ops.py lines 145-147:
the body parses as JSON (`ok`), or `raise_for_status` raises with the
status code in the message (`httpError`), or `.json()` raises a decode
error (`parseError`). -/
inductive DownloadOutcome where
  | ok (r : GitRecord)
  | httpError (code : Nat)
  | parseError
deriving Repr, DecidableEq

/-- One entry of the GitHub directory listing (name plus what downloading
it yields).  GitHub lists a directory in name order. -/
structure DirEntry where
  name : String
  download : DownloadOutcome
deriving Repr, DecidableEq

/-- The remote repository as git_ops.py sees it: whether the messages
directory exists (GET on it answers 200 vs 404), its listing when it does,
and a counter of placeholder files this system has created in it. -/
structure RemoteRepo where
  dir_exists : Bool
  entries : List DirEntry
  gitkeep_puts : Nat
deriving Repr, DecidableEq

/-- The `.gitkeep` placeholder written by `_ensure_messages_directory`
(empty body, so a later download of it would fail to parse as JSON). -/
def gitkeepEntry : DirEntry := ⟨".gitkeep", .parseError⟩

/-- Embedding of git_ops.py `GitMessageHandler._ensure_messages_directory`: GET the
messages directory; on 404, PUT an empty `.gitkeep` file there (creating
the directory); on 200, do nothing.  The backend is modelled as answering
from the state: 404 exactly when the directory does not exist, and the PUT
succeeding. -/
def ensure_messages_directory (st : RemoteRepo) :
    RemoteRepo × Except PyError Unit :=
  if st.dir_exists then (st, .ok ())
  else
    (⟨true, st.entries ++ [gitkeepEntry], st.gitkeep_puts + 1⟩, .ok ())

/-- The loop of git_ops.py lines 141-148 over the selected directory
entries: `.gitkeep` is skipped; a record is appended per successful
download; any `RequestException` aborts the loop and is dispatched by the
handler at lines 154-157 — a message containing "404" makes the whole call
return `[]`, anything else re-raises. -/
inductive LoopResult where
  | collected (msgs : List GitRecord)
  | emptied
  | raised (e : PyError)
deriving Repr, DecidableEq

/-- One pass of the download loop.  A `raise_for_status` message contains
"404" exactly for status 404 (modulo a URL that itself contains "404",
which the model excludes); a JSON decode error message does not. -/
def git_fetch_loop : List DirEntry → LoopResult
  | [] => .collected []
  | e :: rest =>
    if e.name == ".gitkeep" then git_fetch_loop rest
    else
      match e.download with
      | .ok r =>
        match git_fetch_loop rest with
        | .collected msgs => .collected (r :: msgs)
        | other => other
      | .httpError code =>
        if code == 404 then .emptied
        else .raised (.requestError "Error retrieving messages")
      | .parseError => .raised (.requestError "Error retrieving messages")

/-- The sort key access `x['timestamp']` of git_ops.py line 151 (only
evaluated on records that do carry the field). -/
def gitDesc (a b : GitRecord) : Bool :=
  decide (b.timestamp.getD "" ≤ a.timestamp.getD "")

/-- Embedding of git_ops.py `GitMessageHandler.get_messages`: 404 on the directory
listing returns `[]`; otherwise the loop runs over `contents[:limit]` —
the first `limit` entries of the listing, truncated BEFORE any sorting —
and the surviving records are sorted by timestamp descending with no
further truncation.  A record missing `timestamp` makes the sort raise
`KeyError` (not caught: the handler only catches `RequestException`). -/
def git_get_messages (st : RemoteRepo) (limit : Int) :
    Except PyError (List GitRecord) :=
  if st.dir_exists = false then .ok []
  else
    match git_fetch_loop (pyTake limit st.entries) with
    | .emptied => .ok []
    | .raised e => .error e
    | .collected msgs =>
      if msgs.all (fun m => m.timestamp.isSome) then
        .ok (msgs.mergeSort gitDesc)
      else .error .keyError

/-- One element of the merged feed built by server.py `fetch_messages`:
either a repository message converted by `RepositoryManager.to_dict`, or a
local database row reshaped at lines 74-83 (repository "local", integer
id). -/
inductive FeedItem where
  | fromRepo (m : GhMessage)
  | fromDb (content : String) (author : String) (timestamp : String) (id : Nat)
deriving Repr, DecidableEq

/-- The `x["timestamp"]` key every merged item carries. -/
def FeedItem.timestamp : FeedItem → String
  | .fromRepo m => m.timestamp
  | .fromDb _ _ ts _ => ts

/-- The sort of server.py lines 90-93: key `datetime.fromisoformat
(x["timestamp"])`, `reverse=True`; on canonical ISO strings this is the
descending lexicographic order. -/
def feedDesc (a b : FeedItem) : Bool :=
  decide (b.timestamp ≤ a.timestamp)

/-- The JSON body `fetch_messages` produces: always a `messages` list, plus
an `error` field exactly on the exception path (line 103). -/
structure MessagesResponse where
  messages : List FeedItem
  error : Option String
deriving Repr, DecidableEq

/-- Embedding of server.py `MessageHandler.fetch_messages`: gather repository messages,
read the local rows, reshape, concatenate (repositories first), sort by
timestamp descending, slice to `limit` when given.  `dbRaises` models the
local store raising (sqlite error) at line 71, in which case the catch-all
at lines 101-103 returns `messages = []` with an `error` string — not a
failure.  A `none` limit reaches SQLite as `LIMIT NULL`, which bounds
nothing. -/
def server_fetch_messages (repos : List (RepositoryConfig × RepoFetchEnv))
    (db : DBState) (dbRaises : Bool) (dbErr : String) (limit : Option Int) :
    MessagesResponse :=
  if dbRaises then ⟨[], some dbErr⟩
  else
    let repo_messages := fetch_all_messages repos limit
    let db_messages :=
      match limit with
      | some l => get_messages db l
      | none => db.rows.mergeSort rowDesc
    let formatted_db_messages := db_messages.map (fun r =>
      FeedItem.fromDb r.content r.author r.timestamp r.id)
    let all_messages := repo_messages.map FeedItem.fromRepo ++ formatted_db_messages
    let sorted := all_messages.mergeSort feedDesc
    ⟨(match limit with | some l => pyTake l sorted | none => sorted), none⟩

/-- The raw `limit` query parameter of `GET /messages`. -/
inductive LimitParam where
  | absent
  | numeric (n : Int)
  | nonNumeric (s : String)
deriving Repr, DecidableEq

/-- The HTTP outcome of a GET handler: a 200 JSON body, or `send_error`. -/
inductive GetResponse where
  | json (body : MessagesResponse)
  | httpError (code : Nat) (msg : String)
deriving Repr, DecidableEq

/-- Embedding of server.py `MessageHandler.handle_get_messages`: `int()` on a
non-numeric limit raises `ValueError` → 400; `limit <= 0` → 400 "Limit
must be positive"; an absent limit defaults to 100; otherwise the
`fetch_messages` result is sent as a 200 JSON response (including the
`error`-field case). -/
def handle_get_messages (repos : List (RepositoryConfig × RepoFetchEnv))
    (db : DBState) (dbRaises : Bool) (dbErr : String) (lp : LimitParam) :
    GetResponse :=
  match lp with
  | .nonNumeric s => .httpError 400 ("invalid literal for int with base 10: " ++ s)
  | .absent => .json (server_fetch_messages repos db dbRaises dbErr (some 100))
  | .numeric n =>
    if n ≤ 0 then .httpError 400 "Limit must be positive"
    else .json (server_fetch_messages repos db dbRaises dbErr (some n))

/-- The parsed JSON body of `POST /messages`: each field is `some` exactly
when the key is present. -/
structure PostBody where
  message : Option String
  author : Option String
  repository : Option String
deriving Repr, DecidableEq

/-- The dict `repo_manager.store_message` would return on success
(repository_manager.py line 155 sets `commit_url`, so the
`'commit_url' in github_result` test of server.py line 169 holds). -/
structure GithubResult where
  commit_url : String
deriving Repr, DecidableEq

/-- The HTTP outcome of `POST /messages`: a 200 success JSON carrying the
stored row, or `send_error`. -/
inductive PostResponse where
  | success (data : Option Row)
  | httpError (code : Nat) (msg : String)
deriving Repr, DecidableEq

/-- Embedding of server.py `MessageHandler.handle_post_message`.  `body` is the JSON
parse outcome of the request body; `dbStoreRaises` models the local store
raising at line 147 (caught by the outer handler → 500); `github_outcome`
models evaluating `repo_manager.store_message(...)` at lines 163-165 —
in the source this always raises (see `repo_store_message`), but the
embedding keeps it general.  When it does return a result, the handler
evaluates `self.db.update_message` (line 170), whose attribute lookup
raises `AttributeError` (no such method); the inner `except` catches it,
so the GitHub URL is neither persisted nor added to the response. -/
def handle_post_message (db : DBState) (repositories : List RepositoryConfig)
    (body : Except Unit PostBody) (ts : String) (dbStoreRaises : Bool)
    (github_outcome : Except PyError GithubResult) : DBState × PostResponse :=
  match body with
  | .error _ => (db, .httpError 400 "Invalid JSON")
  | .ok b =>
    match b.message with
    | none => (db, .httpError 400 "Message content is required")
    | some message =>
      if dbStoreRaises then (db, .httpError 500 "database error")
      else
        let author := b.author.getD "Anonymous"
        let sres := store_message db message author none ts
        let db1 := sres.1
        let stored := sres.2
        let repo_config : Option RepositoryConfig :=
          match b.repository with
          | some repoName =>
            repositories.find? (fun r => r.owner ++ "/" ++ r.name == repoName)
          | none => repositories.head?
        match repo_config with
        | none => (db1, .success stored)
        | some _ =>
          match github_outcome with
          | .error _ => (db1, .success stored)
          | .ok gr =>
            match update_message db1 with
            | .ok res =>
              (res.1, .success (stored.map (fun s =>
                { s with github_url := some gr.commit_url })))
            | .error _ => (db1, .success stored)

/-- Modelled from the claim's words (for comparison with
`git_get_messages`, which is translated from git_ops.py): read every
non-placeholder entry, skip each entry that fails to parse or is missing
required fields, sort the successes by timestamp descending, truncate to
the `limit` most recent. -/
def fetch_claimed (st : RemoteRepo) (limit : Int) : List GitRecord :=
  if st.dir_exists = false then []
  else
    let parsed := st.entries.filterMap (fun e =>
      if e.name == ".gitkeep" then none
      else
        match e.download with
        | .ok r => if r.timestamp.isSome then some r else none
        | _ => none)
    (parsed.mergeSort gitDesc).take limit.toNat

/-! ### Helper lemmas -/

theorem rowDesc_trans : ∀ a b c : Row, rowDesc a b = true → rowDesc b c = true →
    rowDesc a c = true := by
  intro a b c hab hbc
  simp only [rowDesc, decide_eq_true_eq] at hab hbc ⊢
  exact le_trans hbc hab

theorem rowDesc_total : ∀ a b : Row, (rowDesc a b || rowDesc b a) = true := by
  intro a b
  simp only [rowDesc, Bool.or_eq_true, decide_eq_true_eq]
  exact le_total b.timestamp a.timestamp

/-- With AUTOINCREMENT well-formedness, `store_message` appends exactly one
row carrying the fresh id and re-reads that same row. -/
theorem store_message_eq (st : DBState) (hwf : st.wf) (c a : String)
    (g : Option String) (ts : String) :
    store_message st c a g ts
      = (⟨st.rows ++ [⟨st.nextId, c, a, ts, g⟩], st.nextId + 1⟩,
         some ⟨st.nextId, c, a, ts, g⟩) := by
  have h1 : st.rows.find? (fun r => r.id == st.nextId) = none := by
    rw [List.find?_eq_none]
    intro r hr
    simpa using Nat.ne_of_lt (hwf r hr)
  simp [store_message, get_message, List.find?_append, h1, List.find?]

/-- Slicing with `xs[:limit]` keeps the whole list when it is no longer than a
non-negative limit (and a negative limit forces the list empty here). -/
theorem pyTake_of_length_le (limit : Int) (xs : List α)
    (h : xs.length ≤ limit.toNat) : pyTake limit xs = xs := by
  unfold pyTake
  split
  · next hneg =>
      have hz : xs.length = 0 := by omega
      rw [List.eq_nil_of_length_eq_zero hz]
      simp
  · exact List.take_of_length_le h

/-- Lemma: a `LIMIT` at least the row count returns a permutation of all rows. -/
theorem get_messages_perm_of_le (st : DBState) (limit : Int)
    (h : st.rows.length ≤ limit.toNat) : (get_messages st limit).Perm st.rows := by
  unfold get_messages
  split
  · exact List.mergeSort_perm st.rows rowDesc
  · rw [List.take_of_length_le (by rw [List.length_mergeSort]; exact h)]
    exact List.mergeSort_perm st.rows rowDesc

/-- A stored row shows up in any sufficiently large read. -/
theorem mem_get_messages_of_mem (st : DBState) (r : Row) (hr : r ∈ st.rows)
    (limit : Int) (h : st.rows.length ≤ limit.toNat) :
    r ∈ get_messages st limit :=
  (get_messages_perm_of_le st limit h).mem_iff.mpr hr

/-- A repository whose fetch raises contributes the empty list, so the
concatenated shard results are those of the remaining repositories. -/
theorem flatten_with_raise (pre post : List (RepositoryConfig × RepoFetchEnv))
    (failing : RepositoryConfig) :
    ((pre ++ [(failing, RepoFetchEnv.raise)] ++ post).map
        (fun re => fetch_messages_from_repo re.1 re.2)).flatten
      = ((pre ++ post).map (fun re => fetch_messages_from_repo re.1 re.2)).flatten := by
  simp [List.map_append, List.flatten_append, fetch_messages_from_repo]

/-! ### Claims -/

/-- Claim C10: a successful `store_message` returns exactly the persisted
row re-read by id — `get_message` on the returned id yields an equal
record, with the given content, author and timestamp and a null remote
reference when none was supplied. -/
theorem store_message_roundtrip (st : DBState) (hwf : st.wf)
    (content author ts : String) :
    (store_message st content author none ts).2
        = some ⟨st.nextId, content, author, ts, none⟩ ∧
    get_message (store_message st content author none ts).1 st.nextId
        = some ⟨st.nextId, content, author, ts, none⟩ := by
  have h := store_message_eq st hwf content author none ts
  have h1 : st.rows.find? (fun r => r.id == st.nextId) = none := by
    rw [List.find?_eq_none]
    intro r hr
    simpa using Nat.ne_of_lt (hwf r hr)
  constructor
  · rw [h]
  · rw [h]
    simp [get_message, List.find?_append, h1, List.find?]

/-- Witness for C10 at a concrete store. -/
theorem store_message_roundtrip_witness :
    (store_message ⟨[], 1⟩ "hello" "Bob" none "2024-01-01T00:00:00").2
        = some ⟨1, "hello", "Bob", "2024-01-01T00:00:00", none⟩ ∧
    get_message (store_message ⟨[], 1⟩ "hello" "Bob" none "2024-01-01T00:00:00").1 1
        = some ⟨1, "hello", "Bob", "2024-01-01T00:00:00", none⟩ :=
  store_message_roundtrip ⟨[], 1⟩ (fun r hr => absurd hr (List.not_mem_nil r))
    "hello" "Bob" "2024-01-01T00:00:00"

/-- Claim C6: for every positive limit, the local `list` returns messages
in non-increasing timestamp order, its length is exactly
min(limit, count), and every returned message is a stored one. -/
theorem get_messages_sorted_truncated (st : DBState) (limit : Int)
    (hpos : 0 < limit) :
    List.Pairwise (fun a b : Row => b.timestamp ≤ a.timestamp)
        (get_messages st limit) ∧
    (get_messages st limit).length = min limit.toNat st.rows.length ∧
    ∀ r ∈ get_messages st limit, r ∈ st.rows := by
  have hneg : ¬ limit < 0 := by omega
  have hp : List.Pairwise (fun a b => rowDesc a b = true)
      (st.rows.mergeSort rowDesc) :=
    List.sorted_mergeSort rowDesc_trans rowDesc_total st.rows
  have hp2 : List.Pairwise (fun a b : Row => b.timestamp ≤ a.timestamp)
      (st.rows.mergeSort rowDesc) :=
    hp.imp (by intro a b h; simpa [rowDesc] using h)
  refine ⟨?_, ?_, ?_⟩
  · unfold get_messages
    rw [if_neg hneg]
    exact List.Pairwise.sublist (List.take_sublist _ _) hp2
  · unfold get_messages
    rw [if_neg hneg, List.length_take, List.length_mergeSort]
  · intro r hr
    unfold get_messages at hr
    rw [if_neg hneg] at hr
    exact (List.mergeSort_perm st.rows rowDesc).mem_iff.mp
      (List.Sublist.mem hr (List.take_sublist _ _))

/-- Witness for C6 on a two-row store with limit 1. -/
theorem get_messages_sorted_truncated_witness :
    List.Pairwise (fun a b : Row => b.timestamp ≤ a.timestamp)
        (get_messages ⟨[⟨1, "a", "A", "2024-01-01T00:00:00", none⟩,
                        ⟨2, "b", "B", "2024-01-02T00:00:00", none⟩], 3⟩ 1) ∧
    (get_messages ⟨[⟨1, "a", "A", "2024-01-01T00:00:00", none⟩,
                    ⟨2, "b", "B", "2024-01-02T00:00:00", none⟩], 3⟩ 1).length
      = min (1 : Int).toNat 2 ∧
    ∀ r ∈ get_messages ⟨[⟨1, "a", "A", "2024-01-01T00:00:00", none⟩,
                         ⟨2, "b", "B", "2024-01-02T00:00:00", none⟩], 3⟩ 1,
      r ∈ [⟨1, "a", "A", "2024-01-01T00:00:00", none⟩,
           ⟨2, "b", "B", "2024-01-02T00:00:00", none⟩] :=
  get_messages_sorted_truncated
    ⟨[⟨1, "a", "A", "2024-01-01T00:00:00", none⟩,
      ⟨2, "b", "B", "2024-01-02T00:00:00", none⟩], 3⟩ 1 (by decide)

/-- Counterexample for C4: `store("", "Bob")` does not fail — db.py
performs no validation, and the empty-content row is persisted and
returned. -/
theorem store_empty_succeeds_cex :
    store_message ⟨[], 1⟩ "" "Bob" none "2024-01-01T00:00:00"
      = (⟨[⟨1, "", "Bob", "2024-01-01T00:00:00", none⟩], 2⟩,
         some ⟨1, "", "Bob", "2024-01-01T00:00:00", none⟩) := by
  decide

/-- Claim C4 as amended: the local store's `store` performs no content
validation — storing the empty string succeeds, persists the row, and the
row appears in subsequent reads. -/
theorem store_empty_succeeds (st : DBState) (hwf : st.wf) (author ts : String)
    (limit : Int) (hlim : st.rows.length + 1 ≤ limit.toNat) :
    (store_message st "" author none ts).2
        = some ⟨st.nextId, "", author, ts, none⟩ ∧
    (⟨st.nextId, "", author, ts, none⟩ : Row)
        ∈ get_messages (store_message st "" author none ts).1 limit := by
  have h := store_message_eq st hwf "" author none ts
  refine ⟨by rw [h], ?_⟩
  rw [h]
  exact mem_get_messages_of_mem _ _ (by simp) limit (by simpa using hlim)

/-- Witness for amended C4 at a concrete store. -/
theorem store_empty_succeeds_witness :
    (store_message ⟨[], 1⟩ "" "Bob" none "2024-01-01T00:00:00").2
        = some ⟨1, "", "Bob", "2024-01-01T00:00:00", none⟩ ∧
    (⟨1, "", "Bob", "2024-01-01T00:00:00", none⟩ : Row)
        ∈ get_messages (store_message ⟨[], 1⟩ "" "Bob" none
            "2024-01-01T00:00:00").1 10 :=
  store_empty_succeeds ⟨[], 1⟩ (fun r hr => absurd hr (List.not_mem_nil r))
    "Bob" "2024-01-01T00:00:00" 10 (by decide)

/-- Counterexample for C8: the local store's `list` does not fail on a
non-positive limit — `get_messages(-1)` returns all rows (SQLite treats a
negative LIMIT as unbounded) and `get_messages(0)` returns the empty
list. -/
theorem get_messages_no_validation_cex :
    get_messages ⟨[⟨1, "a", "A", "2024-01-01T00:00:00", none⟩], 2⟩ (-1)
        = [⟨1, "a", "A", "2024-01-01T00:00:00", none⟩] ∧
    get_messages ⟨[⟨1, "a", "A", "2024-01-01T00:00:00", none⟩], 2⟩ 0 = [] := by
  constructor
  · simp [get_messages, List.mergeSort]
  · simp [get_messages, List.mergeSort]

/-- Claim C8 as amended: the local store's `list` applies no validation
(limit 0 yields `[]`, a negative limit yields all rows); the positivity and
numeric checks live in the HTTP handler, which answers 400. -/
theorem limit_validation_in_http_layer :
    (∀ st : DBState, get_messages st 0 = []) ∧
    (∀ (st : DBState) (n : Int), n < 0 → (get_messages st n).Perm st.rows) ∧
    (∀ repos (db : DBState) (dbR : Bool) (dbE : String) (n : Int), n ≤ 0 →
        handle_get_messages repos db dbR dbE (.numeric n)
          = .httpError 400 "Limit must be positive") ∧
    (∀ repos (db : DBState) (dbR : Bool) (dbE s : String),
        handle_get_messages repos db dbR dbE (.nonNumeric s)
          = .httpError 400 ("invalid literal for int with base 10: " ++ s)) := by
  refine ⟨?_, ?_, ?_, ?_⟩
  · intro st
    simp [get_messages]
  · intro st n hn
    unfold get_messages
    rw [if_pos hn]
    exact List.mergeSort_perm _ _
  · intro repos db dbR dbE n hn
    simp [handle_get_messages, if_pos hn]
  · intro repos db dbR dbE s
    simp [handle_get_messages]

/-- Witness for amended C8 at concrete limits. -/
theorem limit_validation_in_http_layer_witness :
    get_messages ⟨[], 1⟩ 0 = [] ∧
    (get_messages ⟨[], 1⟩ (-2)).Perm [] ∧
    handle_get_messages [] ⟨[], 1⟩ false "" (.numeric (-1))
      = .httpError 400 "Limit must be positive" ∧
    handle_get_messages [] ⟨[], 1⟩ false "" (.nonNumeric "abc")
      = .httpError 400 ("invalid literal for int with base 10: " ++ "abc") :=
  ⟨limit_validation_in_http_layer.1 ⟨[], 1⟩,
   limit_validation_in_http_layer.2.1 ⟨[], 1⟩ (-2) (by decide),
   limit_validation_in_http_layer.2.2.1 [] ⟨[], 1⟩ false "" (-1) (by decide),
   limit_validation_in_http_layer.2.2.2 [] ⟨[], 1⟩ false "" "abc"⟩

/-- Claim C9: when the target directory does not exist, calling the
bootstrap step twice creates exactly one placeholder, the second call
changes nothing, and both calls complete without error. -/
theorem ensure_directory_idempotent (st : RemoteRepo)
    (h : st.dir_exists = false) :
    (ensure_messages_directory st).2 = .ok () ∧
    (ensure_messages_directory (ensure_messages_directory st).1).2 = .ok () ∧
    ((ensure_messages_directory (ensure_messages_directory st).1).1).gitkeep_puts
      = st.gitkeep_puts + 1 ∧
    (ensure_messages_directory (ensure_messages_directory st).1).1
      = (ensure_messages_directory st).1 := by
  simp [ensure_messages_directory, h]

/-- Witness for C9 starting from a missing directory. -/
theorem ensure_directory_idempotent_witness :
    (ensure_messages_directory ⟨false, [], 0⟩).2 = .ok () ∧
    (ensure_messages_directory (ensure_messages_directory ⟨false, [], 0⟩).1).2
      = .ok () ∧
    ((ensure_messages_directory
        (ensure_messages_directory ⟨false, [], 0⟩).1).1).gitkeep_puts = 0 + 1 ∧
    (ensure_messages_directory (ensure_messages_directory ⟨false, [], 0⟩).1).1
      = (ensure_messages_directory ⟨false, [], 0⟩).1 :=
  ensure_directory_idempotent ⟨false, [], 0⟩ rfl

/-- Counterexample for C7: a local-store failure on the read path is not
surfaced as a request failure — `fetch_messages` catches it and
`handle_get_messages` answers a 200 JSON body with an empty message list
and an error string. -/
theorem read_path_swallows_db_failure_cex :
    handle_get_messages [] ⟨[⟨1, "a", "A", "2024-01-01T00:00:00", none⟩], 2⟩
        true "disk error" (.numeric 5)
      = .json ⟨[], some "disk error"⟩ := by
  simp [handle_get_messages, server_fetch_messages]

/-- Claim C7 as amended: on the write path a local-store failure is
surfaced as a 500 error, while on the read path it is caught and converted
into a 200 JSON response with an empty message list and an error field. -/
theorem storage_failure_propagation :
    (∀ (db : DBState) (repositories : List RepositoryConfig)
        (author repoName : Option String) (m ts : String)
        (go : Except PyError GithubResult),
        handle_post_message db repositories (.ok ⟨some m, author, repoName⟩)
            ts true go
          = (db, .httpError 500 "database error")) ∧
    (∀ (repos : List (RepositoryConfig × RepoFetchEnv)) (db : DBState)
        (dbErr : String) (n : Int), 0 < n →
        handle_get_messages repos db true dbErr (.numeric n)
          = .json ⟨[], some dbErr⟩) := by
  constructor
  · intro db repositories author repoName m ts go
    rfl
  · intro repos db dbErr n hn
    have h : ¬ n ≤ 0 := by omega
    simp [handle_get_messages, h, server_fetch_messages]

/-- Witness for amended C7 at concrete failing requests. -/
theorem storage_failure_propagation_witness :
    handle_post_message ⟨[], 1⟩ [] (.ok ⟨some "hi", none, none⟩)
        "2024-01-01T00:00:00" true (.error .attributeError)
      = (⟨[], 1⟩, .httpError 500 "database error") ∧
    handle_get_messages [] ⟨[], 1⟩ true "disk error" (.numeric 3)
      = .json ⟨[], some "disk error"⟩ :=
  ⟨storage_failure_propagation.1 ⟨[], 1⟩ [] none none "hi"
      "2024-01-01T00:00:00" (.error .attributeError),
   storage_failure_propagation.2 [] ⟨[], 1⟩ "disk error" 3 (by decide)⟩

/-- Claim C3 (the code against the claim): the remote mirror write can
never hand a reference back — `repo_store_message` raises on every call
(`bytes.encode('base64')`), and even when a successful result with a
`commit_url` is supplied, `handle_post_message` hits the nonexistent
`db.update_message` method, catches the `AttributeError` as a mirror
failure, and returns the row with its reference still unset and nothing
persisted to `github_url`. -/
theorem github_reference_never_persisted :
    repo_store_message [⟨"o", "r", "main", "messages"⟩] "hi" "Ann" none
        = .error .attributeError ∧
    handle_post_message ⟨[], 1⟩ [⟨"o", "r", "main", "messages"⟩]
        (.ok ⟨some "hi", some "Ann", none⟩) "2024-01-01T00:00:00" false
        (.ok ⟨"https://github.example/commit/1"⟩)
      = (⟨[⟨1, "hi", "Ann", "2024-01-01T00:00:00", none⟩], 2⟩,
         .success (some ⟨1, "hi", "Ann", "2024-01-01T00:00:00", none⟩)) := by
  constructor
  · rfl
  · decide

/-- Counterexample for C5: git_ops's `get_messages` truncates the
directory listing to `limit` BEFORE sorting, so with two entries and
limit 1 it returns the oldest record where the claim demands the most
recent; and an entry that fails to parse aborts the whole fetch with an
exception instead of being skipped. -/
theorem fetch_truncates_before_sort_cex :
    git_get_messages
        ⟨true,
         [⟨"2024-01-01T00-00-00.json",
           .ok ⟨some "old", some "A", some "2024-01-01T00:00:00"⟩⟩,
          ⟨"2024-01-02T00-00-00.json",
           .ok ⟨some "new", some "B", some "2024-01-02T00:00:00"⟩⟩], 0⟩ 1
      = .ok [⟨some "old", some "A", some "2024-01-01T00:00:00"⟩] ∧
    fetch_claimed
        ⟨true,
         [⟨"2024-01-01T00-00-00.json",
           .ok ⟨some "old", some "A", some "2024-01-01T00:00:00"⟩⟩,
          ⟨"2024-01-02T00-00-00.json",
           .ok ⟨some "new", some "B", some "2024-01-02T00:00:00"⟩⟩], 0⟩ 1
      = [⟨some "new", some "B", some "2024-01-02T00:00:00"⟩] ∧
    (⟨some "old", some "A", some "2024-01-01T00:00:00"⟩ : GitRecord)
      ≠ ⟨some "new", some "B", some "2024-01-02T00:00:00"⟩ ∧
    git_get_messages
        ⟨true, [⟨"broken.json", .parseError⟩,
                ⟨"ok.json", .ok ⟨some "x", some "A",
                    some "2024-01-01T00:00:00"⟩⟩], 0⟩ 100
      = .error (.requestError "Error retrieving messages") ∧
    fetch_claimed
        ⟨true, [⟨"broken.json", .parseError⟩,
                ⟨"ok.json", .ok ⟨some "x", some "A",
                    some "2024-01-01T00:00:00"⟩⟩], 0⟩ 100
      = [⟨some "x", some "A", some "2024-01-01T00:00:00"⟩] := by
  refine ⟨?_, ?_, by decide, ?_, ?_⟩
  · simp [git_get_messages, git_fetch_loop, pyTake, List.mergeSort]
  · simp +decide [fetch_claimed, List.mergeSort, List.merge, gitDesc]
  · simp [git_get_messages, git_fetch_loop, pyTake]
  · simp +decide [fetch_claimed, List.mergeSort, List.merge, gitDesc]

/-- Claim C5 as amended: a missing directory yields `[]`; otherwise
git_ops's fetch loops over the first `limit` entries of the listing
(truncation before sorting), skips only the placeholder, aborts with an
exception on an entry that fails to parse, and returns the collected
records sorted by timestamp descending with no further truncation; the
repository_manager fetch, by contrast, does skip an unparsable entry and
processes the rest. -/
theorem git_fetch_actual_behavior :
    (∀ (st : RemoteRepo) (limit : Int), st.dir_exists = false →
        git_get_messages st limit = .ok []) ∧
    (∀ (st : RemoteRepo) (limit : Int) (msgs : List GitRecord),
        st.dir_exists = true →
        git_fetch_loop (pyTake limit st.entries) = .collected msgs →
        msgs.all (fun m => m.timestamp.isSome) = true →
        git_get_messages st limit = .ok (msgs.mergeSort gitDesc)) ∧
    (∀ (ent : DirEntry) (rest : List DirEntry), ent.name ≠ ".gitkeep" →
        ent.download = .parseError →
        git_fetch_loop (ent :: rest)
          = .raised (.requestError "Error retrieving messages")) ∧
    (∀ (repo : RepositoryConfig) (fs1 fs2 : List TreeFile) (f : TreeFile),
        f.parse = none →
        fetch_messages_from_repo repo (.tree 200 (fs1 ++ f :: fs2))
          = fetch_messages_from_repo repo (.tree 200 (fs1 ++ fs2))) := by
  refine ⟨?_, ?_, ?_, ?_⟩
  · intro st limit h
    simp [git_get_messages, h]
  · intro st limit msgs hdir hloop hts
    simp [git_get_messages, hdir, hloop, hts]
  · intro ent rest hname hdl
    simp [git_fetch_loop, hname, hdl]
  · intro repo fs1 fs2 f hf
    by_cases hp : (strStartsWith f.path (repo.message_path ++ "/")
        && strEndsWith f.path ".json") = true
    · simp [fetch_messages_from_repo, message_files, List.filter_append,
        List.filter_cons, hp, List.filterMap_append, List.filterMap_cons, hf,
        ite_self]
    · simp [fetch_messages_from_repo, message_files, List.filter_append,
        List.filter_cons, hp, List.filterMap_append]

/-- Witness for amended C5 at concrete mirror states. -/
theorem git_fetch_actual_behavior_witness :
    git_get_messages ⟨false, [], 0⟩ 100 = .ok [] ∧
    git_get_messages
        ⟨true, [⟨"a.json", .ok ⟨some "x", some "A",
            some "2024-01-01T00:00:00"⟩⟩], 0⟩ 100
      = .ok ([⟨some "x", some "A", some "2024-01-01T00:00:00"⟩].mergeSort
          gitDesc) ∧
    git_fetch_loop [⟨"broken.json", .parseError⟩]
      = .raised (.requestError "Error retrieving messages") ∧
    fetch_messages_from_repo ⟨"o", "r", "main", "messages"⟩
        (.tree 200 ([] ++ ⟨"messages/bad.json", 200, none⟩ :: []))
      = fetch_messages_from_repo ⟨"o", "r", "main", "messages"⟩
        (.tree 200 ([] ++ [])) :=
  ⟨git_fetch_actual_behavior.1 ⟨false, [], 0⟩ 100 rfl,
   git_fetch_actual_behavior.2.1
      ⟨true, [⟨"a.json", .ok ⟨some "x", some "A",
          some "2024-01-01T00:00:00"⟩⟩], 0⟩ 100
      [⟨some "x", some "A", some "2024-01-01T00:00:00"⟩] rfl (by decide)
      (by decide),
   git_fetch_actual_behavior.2.2.1 ⟨"broken.json", .parseError⟩ []
      (by decide) rfl,
   git_fetch_actual_behavior.2.2.2 ⟨"o", "r", "main", "messages"⟩ [] []
      ⟨"messages/bad.json", 200, none⟩ rfl⟩

/-- Unfolding equation for `fetch_all_messages` at a present limit. -/
theorem fetch_all_messages_eq (repos : List (RepositoryConfig × RepoFetchEnv))
    (limit : Int) :
    fetch_all_messages repos (some limit)
      = pyTake limit
          (((repos.map (fun re => fetch_messages_from_repo re.1 re.2)).flatten).mergeSort
            ghDesc) := rfl

/-- Unfolding equation for `server_fetch_messages` when the local store
does not raise. -/
theorem server_fetch_messages_eq
    (repos : List (RepositoryConfig × RepoFetchEnv)) (db : DBState)
    (dbErr : String) (limit : Int) :
    server_fetch_messages repos db false dbErr (some limit)
      = ⟨pyTake limit
            (((fetch_all_messages repos (some limit)).map FeedItem.fromRepo
              ++ (get_messages db limit).map (fun r =>
                    FeedItem.fromDb r.content r.author r.timestamp r.id)).mergeSort
              feedDesc),
         none⟩ := rfl

/-- Claim C1: when the local write succeeds and the remote mirror write
raises, the request still succeeds — the caller receives the locally
stored row unchanged with its remote reference unset, and the row appears
in subsequent reads. -/
theorem mirror_failure_not_surfaced (db : DBState) (hwf : db.wf)
    (repositories : List RepositoryConfig) (author repoName : Option String)
    (m ts : String) (e : PyError) (limit : Int)
    (hl : db.rows.length + 1 ≤ limit.toNat) :
    handle_post_message db repositories (.ok ⟨some m, author, repoName⟩) ts
        false (.error e)
      = (⟨db.rows ++ [⟨db.nextId, m, author.getD "Anonymous", ts, none⟩],
          db.nextId + 1⟩,
         .success (some ⟨db.nextId, m, author.getD "Anonymous", ts, none⟩)) ∧
    (⟨db.nextId, m, author.getD "Anonymous", ts, none⟩ : Row).github_url
        = none ∧
    (⟨db.nextId, m, author.getD "Anonymous", ts, none⟩ : Row) ∈
      get_messages
        ⟨db.rows ++ [⟨db.nextId, m, author.getD "Anonymous", ts, none⟩],
         db.nextId + 1⟩ limit := by
  have h := store_message_eq db hwf m (author.getD "Anonymous") none ts
  refine ⟨?_, rfl, ?_⟩
  · unfold handle_post_message
    cases repoName with
    | none =>
      cases hh : repositories.head? with
      | none => simp [h, hh]
      | some cfg => simp [h, hh]
    | some rn =>
      cases hf : repositories.find?
          (fun r => r.owner ++ "/" ++ r.name == rn) with
      | none => simp [h, hf]
      | some cfg => simp [h, hf]
  · exact mem_get_messages_of_mem _ _ (by simp) limit (by simpa using hl)

/-- Witness for C1: one configured repository, a raising mirror write. -/
theorem mirror_failure_not_surfaced_witness :
    handle_post_message ⟨[], 1⟩ [⟨"o", "r", "main", "messages"⟩]
        (.ok ⟨some "hi", some "Ann", none⟩) "2024-01-01T00:00:00" false
        (.error .attributeError)
      = (⟨[⟨1, "hi", "Ann", "2024-01-01T00:00:00", none⟩], 2⟩,
         .success (some ⟨1, "hi", "Ann", "2024-01-01T00:00:00", none⟩)) ∧
    (⟨1, "hi", "Ann", "2024-01-01T00:00:00", none⟩ : Row).github_url = none ∧
    (⟨1, "hi", "Ann", "2024-01-01T00:00:00", none⟩ : Row) ∈
      get_messages ⟨[⟨1, "hi", "Ann", "2024-01-01T00:00:00", none⟩], 2⟩ 10 := by
  have h := mirror_failure_not_surfaced ⟨[], 1⟩
    (fun r hr => absurd hr (List.not_mem_nil r))
    [⟨"o", "r", "main", "messages"⟩] (some "Ann") none "hi"
    "2024-01-01T00:00:00" .attributeError 10 (by decide)
  simpa using h

/-- Claim C2: a mirror whose fetch raises contributes an empty shard and
does not abort the merged read — for a limit covering all entries, the
result carries no error and is exactly (a permutation of) the successful
mirrors' entries plus the local entries. -/
theorem failing_mirror_empty_shard
    (pre post : List (RepositoryConfig × RepoFetchEnv))
    (failing : RepositoryConfig) (db : DBState) (dbErr : String) (limit : Int)
    (hl : (((pre ++ post).map
            (fun re => fetch_messages_from_repo re.1 re.2)).flatten).length
          + db.rows.length ≤ limit.toNat) :
    (server_fetch_messages (pre ++ [(failing, .raise)] ++ post) db false dbErr
        (some limit)).error = none ∧
    (server_fetch_messages (pre ++ [(failing, .raise)] ++ post) db false dbErr
        (some limit)).messages.Perm
      ((((pre ++ post).map
            (fun re => fetch_messages_from_repo re.1 re.2)).flatten).map
          FeedItem.fromRepo
        ++ db.rows.map (fun r =>
            FeedItem.fromDb r.content r.author r.timestamp r.id)) := by
  set fpp := ((pre ++ post).map
      (fun re => fetch_messages_from_repo re.1 re.2)).flatten with hfpp
  have e1 := fetch_all_messages_eq (pre ++ [(failing, .raise)] ++ post) limit
  rw [flatten_with_raise, ← hfpp] at e1
  have e2 : fetch_all_messages (pre ++ [(failing, .raise)] ++ post)
      (some limit) = fpp.mergeSort ghDesc := by
    rw [e1]
    exact pyTake_of_length_le _ _ (by rw [List.length_mergeSort]; omega)
  have hperm1 : (fetch_all_messages (pre ++ [(failing, .raise)] ++ post)
      (some limit)).Perm fpp := by
    rw [e2]; exact List.mergeSort_perm fpp ghDesc
  have hdbperm : (get_messages db limit).Perm db.rows :=
    get_messages_perm_of_le db limit (by omega)
  have hall : ((fetch_all_messages (pre ++ [(failing, .raise)] ++ post)
        (some limit)).map FeedItem.fromRepo
      ++ (get_messages db limit).map (fun r =>
            FeedItem.fromDb r.content r.author r.timestamp r.id)).Perm
      (fpp.map FeedItem.fromRepo
        ++ db.rows.map (fun r =>
            FeedItem.fromDb r.content r.author r.timestamp r.id)) :=
    List.Perm.append (hperm1.map _) (hdbperm.map _)
  rw [server_fetch_messages_eq]
  refine ⟨rfl, ?_⟩
  have hlen : ((fetch_all_messages (pre ++ [(failing, .raise)] ++ post)
        (some limit)).map FeedItem.fromRepo
      ++ (get_messages db limit).map (fun r =>
            FeedItem.fromDb r.content r.author r.timestamp r.id)).length
      = fpp.length + db.rows.length := by
    rw [hall.length_eq]
    simp
  rw [pyTake_of_length_le limit _ (by rw [List.length_mergeSort, hlen]; omega)]
  exact (List.mergeSort_perm _ feedDesc).trans hall

/-- A concrete answering mirror for the C2 witness: one well-formed
message file in its tree. -/
def exMirrorOk : RepositoryConfig × RepoFetchEnv :=
  (⟨"p", "q", "main", "messages"⟩,
   .tree 200 [⟨"messages/1.json", 200,
      some ⟨"m1", "B", "2024-01-03T00:00:00", none, none⟩⟩])

/-- A concrete one-row local store for the C2 witness. -/
def exDb : DBState := ⟨[⟨1, "loc", "L", "2024-01-02T00:00:00", none⟩], 2⟩

/-- Witness for C2: one raising mirror beside one answering mirror, one
local row, limit 10. -/
theorem failing_mirror_empty_shard_witness :
    (server_fetch_messages
        ([] ++ [(⟨"o", "r", "main", "messages"⟩, .raise)] ++ [exMirrorOk])
        exDb false "" (some 10)).error = none ∧
    (server_fetch_messages
        ([] ++ [(⟨"o", "r", "main", "messages"⟩, .raise)] ++ [exMirrorOk])
        exDb false "" (some 10)).messages.Perm
      (((([] ++ [exMirrorOk]).map
            (fun re : RepositoryConfig × RepoFetchEnv =>
              fetch_messages_from_repo re.1 re.2)).flatten).map
          FeedItem.fromRepo
        ++ exDb.rows.map (fun r =>
            FeedItem.fromDb r.content r.author r.timestamp r.id)) :=
  failing_mirror_empty_shard [] [exMirrorOk] ⟨"o", "r", "main", "messages"⟩
    exDb "" 10 (by decide)

end MessageBoard
